import Mathlib

/-!
Verification of the core algorithms of the `road_speed_limits` integration:
the unit converter, coordinate validation, the movement trigger, the
read-time fallback resolver, the OSM transport retry loop, the refresh
orchestrator with its geospatial cache, and the polling state machine.

Python's arbitrary-precision integers are modelled by `Int`/`Nat`; the
float arithmetic of `convert_speed` (decimal literal `1.609344`) is
modelled exactly over `ℚ` (the decimal literal is exact in `ℚ`; Python's
`round` is round-half-to-even, but for integer speeds `s`, `s * 1.609344`
is never an exact half, so round-to-nearest over `ℚ` agrees).
-/

namespace RoadSpeedLimits

/-- The `SpeedLimitData` structure of `const.py` (a `TypedDict` with
`total=False`): `speed_limit : int | None`, `road_name : str | None`,
`unit : str` (absent/None in the OSM no-data result), and
`distance : float | None`. -/
structure SpeedLimitData where
  speed_limit : Option Int
  road_name : Option String
  unit : Option String
  distance : Option ℚ
deriving DecidableEq, Inhabited

/-- `helpers.convert_speed` (helpers.py lines 113-142): `None` passes
through; same-unit mph is floored to a multiple of 5, same-unit km/h is
returned unchanged; km/h→mph divides by `1.609344` and floors to the next
lower multiple of 5; mph→km/h multiplies by `1.609344` and rounds to the
nearest integer; any other unit pair passes the value through.  Python's
`//` on ints is floor division (`Int.fdiv`); `converted // 5` on floats is
`⌊converted / 5⌋`. -/
def convert_speed (speed : Option Int) (from_unit to_unit : String) : Option Int :=
  match speed with
  | none => none
  | some s =>
    if from_unit = to_unit then
      if to_unit = "mph" then some ((Int.fdiv s 5) * 5)
      else some s
    else if from_unit = "km/h" ∧ to_unit = "mph" then
      some (⌊((s : ℚ) / (1.609344 : ℚ)) / 5⌋ * 5)
    else if from_unit = "mph" ∧ to_unit = "km/h" then
      some (round ((s : ℚ) * (1.609344 : ℚ)))
    else
      some s

/-- `helpers.validate_coordinates` (helpers.py lines 87-110): `False` when
either component is `None`, when the latitude is outside `[-90, 90]`, or
when the longitude is outside `[-180, 180]`; `True` otherwise. -/
def validate_coordinates (latitude longitude : Option ℚ) : Bool :=
  match latitude, longitude with
  | none, _ => false
  | _, none => false
  | some la, some lo =>
    if ¬(-90 ≤ la ∧ la ≤ 90) then false
    else if ¬(-180 ≤ lo ∧ lo ≤ 180) then false
    else true

/-- The coordinate-tracking fields of `RoadSpeedLimitsCoordinator`
(coordinator.py lines 84-89): the session's current coordinate and the
coordinate of the last API fetch. -/
structure CoordSession where
  latitude : ℚ
  longitude : ℚ
  last_api_latitude : ℚ
  last_api_longitude : ℚ
deriving DecidableEq

/-- `RoadSpeedLimitsCoordinator._on_location_change` (coordinator.py lines
160-197).  The extracted coordinates (`get_coordinate_from_entity` results)
are the two `Option ℚ` inputs; the haversine `_calculate_distance`, being a
transcendental float computation whose value only feeds the `≥` comparison,
is abstracted as the `dist` parameter.  Returns the updated session and
whether a refresh was requested: an invalid observation is discarded with
the session untouched; a valid one updates `latitude`/`longitude`
unconditionally and requests a refresh iff the distance moved since the
last API fetch is at least `min_update_distance`. -/
def on_location_change (dist : ℚ → ℚ → ℚ → ℚ → ℚ) (min_update_distance : ℚ)
    (st : CoordSession) (new_lat new_lon : Option ℚ) : CoordSession × Bool :=
  match new_lat, new_lon with
  | some la, some lo =>
    if validate_coordinates (some la) (some lo) then
      let distance := dist st.last_api_latitude st.last_api_longitude la lo
      if distance ≥ min_update_distance then
        ({ st with latitude := la, longitude := lo }, true)
      else
        ({ st with latitude := la, longitude := lo }, false)
    else (st, false)
  | _, _ => (st, false)

/-- The recurring truthiness test `res and res.get("speed_limit") is not
None` of coordinator.py (lines 300, 329, 348, 359): `res` is a present,
non-empty dict whose `speed_limit` value is not `None`.  A provider result
dict always carries its four keys, so dict non-emptiness is `isSome` of the
entry. -/
def has_usable_speed : Option SpeedLimitData → Bool
  | none => false
  | some r => r.speed_limit.isSome

/-- The provider-selection state mutated by
`RoadSpeedLimitsCoordinator.get_primary_data`: the `fallback_active` flag
and `active_provider_name` (coordinator.py lines 94-95). -/
structure ResolveOutcome where
  result : Option SpeedLimitData
  fallback_active : Bool
  active_provider_name : Option String
deriving DecidableEq

/-- The `for source in fallback_order` loop of `get_primary_data`
(coordinator.py lines 354-367): skip the primary, and stop at the first
entry with a usable speed limit, yielding it together with the display
name the loop records (`self.providers[source].get_provider_name()`,
modelled by `provider_names`). -/
def scan_fallback (data : String → Option SpeedLimitData) (data_source : String)
    (provider_names : String → String) :
    List String → Option (SpeedLimitData × String)
  | [] => none
  | s :: rest =>
    if s = data_source then scan_fallback data data_source provider_names rest
    else
      match data s with
      | some r =>
        if r.speed_limit.isSome then some (r, provider_names s)
        else scan_fallback data data_source provider_names rest
      | none => scan_fallback data data_source provider_names rest

/-- `RoadSpeedLimitsCoordinator.get_primary_data` (coordinator.py lines
340-369).  `data` is `self.data` (the stored ResultSet: `.get` of a missing
or failed provider both give `None`, modelled as `none`);
`fallback_active0`/`active_provider0` are the flag values before the call.
If the primary's entry has a usable speed limit it is returned with the
state untouched; else the fixed order HERE → TomTom → OSM is scanned
skipping the primary, the first usable entry being returned with
`fallback_active` ending up `true` (the code sets it only when it was
`false`, with the same net effect) and the provider's name recorded; if
none qualify, the primary's entry is returned verbatim with the state
untouched. -/
def get_primary_data (data : String → Option SpeedLimitData) (data_source : String)
    (provider_names : String → String) (fallback_active0 : Bool)
    (active_provider0 : Option String) : ResolveOutcome :=
  let primary_res := data data_source
  if has_usable_speed primary_res then
    { result := primary_res, fallback_active := fallback_active0,
      active_provider_name := active_provider0 }
  else
    match scan_fallback data data_source provider_names ["here", "tomtom", "osm"] with
    | some (r, nm) =>
      { result := some r, fallback_active := true, active_provider_name := some nm }
    | none =>
      { result := primary_res, fallback_active := fallback_active0,
        active_provider_name := active_provider0 }

/-- The read-time Fallback Resolver algorithm as the spec words it, with
the amendment that step 1 leaves fallback-active unchanged (rather than
marking it inactive): step 1 returns the primary's usable entry; step 2
scans HERE, TomTom, OSM skipping the primary and returns the first entry
with a non-absent speed_limit, setting fallback-active and recording the
active provider; step 3 returns the primary's entry verbatim with the
flags as previously set.  Stated for refinement against
`get_primary_data`. -/
def resolve_spec (data : String → Option SpeedLimitData) (data_source : String)
    (provider_names : String → String) (fallback_active0 : Bool)
    (active_provider0 : Option String) : ResolveOutcome :=
  if has_usable_speed (data data_source) then
    { result := data data_source, fallback_active := fallback_active0,
      active_provider_name := active_provider0 }
  else
    match (["here", "tomtom", "osm"].filter (fun s => s ≠ data_source)).find?
        (fun s => has_usable_speed (data s)) with
    | some s =>
      { result := data s, fallback_active := true,
        active_provider_name := some (provider_names s) }
    | none =>
      { result := data data_source, fallback_active := fallback_active0,
        active_provider_name := active_provider0 }

/-- The observable outcome of one HTTP attempt inside
`OSMSpeedLimitProvider.fetch_speed_limit`: a 200 response carrying parsed
data, any other HTTP status, or a timeout / connection-level
`ClientError`. -/
inductive FetchOutcome where
  | ok (d : SpeedLimitData)
  | httpStatus (code : Nat)
  | timeout
deriving DecidableEq

/-- The transient-status test of providers.py line 122:
`response.status in (429, 502, 503, 504)`. -/
def is_transient_status (code : Nat) : Bool :=
  code = 429 ∨ code = 502 ∨ code = 503 ∨ code = 504

/-- The body of the `for attempt in range(retries)` loop of
`OSMSpeedLimitProvider.fetch_speed_limit` (providers.py lines 105-152),
with `retries = 3`.  `outcomes attempt` is what the network returns on the
given attempt; the result is the returned data (`none` = the final
`ClientError` raised after the loop, line 152) paired with the list of
`asyncio.sleep` delays in seconds.  A transient status sleeps
`2 * (attempt + 1)` and continues when `attempt < retries - 1`, else
raises (line 134) — and that `ClientError`, raised inside the `try`, is
caught by the `except` on line 139 on the final attempt, ending the loop.
A non-transient status raises `ClientError` (line 137) *inside the same
`try`*, so it too is caught on line 139 and, when `attempt < retries - 1`,
sleeps `2 * (attempt + 1)` (line 148) and continues.  A timeout or
connection error is likewise caught and retried.  `fuel` is the number of
loop iterations remaining. -/
def osmFetchLoop (outcomes : Nat → FetchOutcome) :
    Nat → Nat → Option SpeedLimitData × List Nat
  | _, 0 => (none, [])
  | attempt, fuel + 1 =>
    match outcomes attempt with
    | .ok d => (some d, [])
    | .httpStatus code =>
      if is_transient_status code then
        if attempt < 3 - 1 then
          let r := osmFetchLoop outcomes (attempt + 1) fuel
          (r.1, 2 * (attempt + 1) :: r.2)
        else (none, [])
      else
        if attempt < 3 - 1 then
          let r := osmFetchLoop outcomes (attempt + 1) fuel
          (r.1, 2 * (attempt + 1) :: r.2)
        else (none, [])
    | .timeout =>
      if attempt < 3 - 1 then
        let r := osmFetchLoop outcomes (attempt + 1) fuel
        (r.1, 2 * (attempt + 1) :: r.2)
      else (none, [])

/-- `OSMSpeedLimitProvider.fetch_speed_limit` as a function of the
per-attempt outcomes: the loop starts at attempt 0 with `retries = 3`
iterations available. -/
def osm_fetch_speed_limit (outcomes : Nat → FetchOutcome) :
    Option SpeedLimitData × List Nat :=
  osmFetchLoop outcomes 0 3

/-- The state of the configured speed entity as
`RoadSpeedLimitsCoordinator._async_update_data` reads it (coordinator.py
lines 267-276): the literal states `"unavailable"`/`"unknown"`, a state
parsing to a float, or one whose `float()` raises. -/
inductive SpeedState where
  | unavailable
  | unknown
  | numeric (v : ℚ)
  | unparsable
deriving DecidableEq

/-- A stored ResultSet: the `results` dict mapping provider identifiers to
their outcome (`none` = the provider raised), in insertion order. -/
abbrev ResultSet := List (String × Option SpeedLimitData)

/-- The `use_cache` computation of `_async_update_data` (coordinator.py
lines 266-276): eligible by default; a configured speed entity whose state
is present, not `"unavailable"`/`"unknown"`, parses as a float and is
`≥ CACHE_SPEED_THRESHOLD` (16 km/h, const.py line 42) makes it
ineligible; an unparsable state is ignored (`except ... pass`).  The outer
`Option` is whether a speed entity is configured, the inner whether
`hass.states.get` found it. -/
def cache_eligible (speed : Option (Option SpeedState)) : Bool :=
  match speed with
  | none => true
  | some none => true
  | some (some .unavailable) => true
  | some (some .unknown) => true
  | some (some .unparsable) => true
  | some (some (.numeric v)) => if v ≥ 16 then false else true

/-- `RoadSpeedLimitsCoordinator._get_cached_data` (coordinator.py lines
218-235) at one cache key: `entry` is the stored `(data, timestamp)` pair
for the current quantized coordinate (key construction,
`_get_cache_key`'s rounding to 4 decimals, is abstracted away), `now` is
`time.time()`.  Returns the lookup result and the entry remaining in the
cache afterwards: a fresh entry (age < 300 s, `_cache_ttl`) is returned
and kept; an expired one is deleted (`del self._cache[key]`) and `None`
returned. -/
def get_cached_data (entry : Option (ResultSet × ℚ)) (now : ℚ) :
    Option ResultSet × Option (ResultSet × ℚ) :=
  match entry with
  | none => (none, none)
  | some (d, ts) => if now - ts < 300 then (some d, some (d, ts)) else (none, none)

/-- `RoadSpeedLimitsCoordinator._apply_unit_conversion` (coordinator.py
lines 371-395): falsy data or an absent speed limit passes through; a
truthy source unit differing from the preference converts the speed and
rewrites the unit. -/
def apply_unit_conversion (unit_preference : String)
    (data : Option SpeedLimitData) : Option SpeedLimitData :=
  match data with
  | none => none
  | some d =>
    match d.speed_limit with
    | none => some d
    | some _ =>
      match d.unit with
      | none => some d
      | some su =>
        if su ≠ "" ∧ su ≠ unit_preference then
          some { d with
            speed_limit := convert_speed d.speed_limit su unit_preference,
            unit := some unit_preference }
        else some d

/-- The outcome of one `_async_update_data` cycle: the returned ResultSet,
the providers actually fetched (in order), the cache entry stored at this
cycle's key afterwards, and the provider-selection state that results. -/
structure UpdOutcome where
  results : ResultSet
  queried : List String
  cacheWrite : Option (ResultSet × ℚ)
  fallback_active : Bool
  active_provider_name : Option String
deriving DecidableEq

/-- The `for fallback_source in available_fallbacks` loop of
`_async_update_data` (coordinator.py lines 319-335): each provider is
fetched in turn; an exception records `None` and continues; a result is
unit-converted and recorded, and the loop breaks at the first one with a
usable speed limit, recording its display name. -/
def fallback_loop (fetchRes : String → Option SpeedLimitData)
    (provider_names : String → String) (unit_pref : String) :
    List String → ResultSet × Option String
  | [] => ([], none)
  | s :: rest =>
    match fetchRes s with
    | none =>
      let r := fallback_loop fetchRes provider_names unit_pref rest
      ((s, none) :: r.1, r.2)
    | some d =>
      let conv := apply_unit_conversion unit_pref (some d)
      if has_usable_speed conv then
        ([(s, conv)], some (provider_names s))
      else
        let r := fallback_loop fetchRes provider_names unit_pref rest
        ((s, conv) :: r.1, r.2)

/-- The provider-querying part of `_async_update_data` (coordinator.py
lines 284-338), reached when the cache was bypassed or missed: the primary
is fetched (an exception recording `None`); a usable primary result clears
`fallback_active`, records the primary's name and is cached; otherwise
`fallback_active` is set and the configured fallbacks are tried in the
fixed order HERE → TomTom → OSM (primary excluded), the full ResultSet
being cached either way. -/
def fetch_phase (providers : List String) (data_source : String)
    (provider_names : String → String) (unit_pref : String)
    (fetchRes : String → Option SpeedLimitData) (now : ℚ)
    (fallback_active0 : Bool) (active_provider0 : Option String) : UpdOutcome :=
  let primary_conv :=
    match fetchRes data_source with
    | some d => apply_unit_conversion unit_pref (some d)
    | none => none
  let results0 : ResultSet := [(data_source, primary_conv)]
  if has_usable_speed primary_conv then
    { results := results0, queried := [data_source],
      cacheWrite := some (results0, now),
      fallback_active := false,
      active_provider_name := some (provider_names data_source) }
  else
    let available := ["here", "tomtom", "osm"].filter
      (fun s => s ∈ providers ∧ s ≠ data_source)
    let fb := fallback_loop fetchRes provider_names unit_pref available
    { results := results0 ++ fb.1,
      queried := data_source :: fb.1.map Prod.fst,
      cacheWrite := some (results0 ++ fb.1, now),
      fallback_active := true,
      active_provider_name :=
        match fb.2 with
        | some n => some n
        | none => active_provider0 }

/-- `RoadSpeedLimitsCoordinator._async_update_data` (coordinator.py lines
248-338) as a function of the cycle's inputs: the configured providers
(`self.providers` keys), primary source, display names, unit preference,
per-provider fetch outcomes, the speed entity reading, the cache entry at
this cycle's quantized key and the current time.  When eligible, the cache
is consulted first and a truthy (non-empty) fresh entry is returned with
no provider queried; otherwise the providers are queried. -/
def async_update_data (providers : List String) (data_source : String)
    (provider_names : String → String) (unit_pref : String)
    (fetchRes : String → Option SpeedLimitData)
    (speed : Option (Option SpeedState))
    (cacheEntry : Option (ResultSet × ℚ)) (now : ℚ)
    (fallback_active0 : Bool) (active_provider0 : Option String) : UpdOutcome :=
  let use_cache := cache_eligible speed
  let lookup := if use_cache then get_cached_data cacheEntry now else (none, cacheEntry)
  match lookup.1 with
  | some d =>
    if d.isEmpty then
      fetch_phase providers data_source provider_names unit_pref fetchRes now
        fallback_active0 active_provider0
    else
      { results := d, queried := [], cacheWrite := lookup.2,
        fallback_active := fallback_active0, active_provider_name := active_provider0 }
  | none =>
    fetch_phase providers data_source provider_names unit_pref fetchRes now
      fallback_active0 active_provider0

/-- Modelled from the spec: the Polling State Machine of §4.5 is not among
the sources here — only its observer is (binary_sensor.py line 40 reads
`coordinator.polling_active`) — so its states are modelled from the spec's
words: Dormant (no timer) and Active carrying the last-motion
timestamp. -/
inductive PollingState where
  | dormant
  | active (last_motion : ℚ)
deriving DecidableEq

/-- Modelled from the spec: the events driving the Polling State Machine —
a qualifying movement signal (§4.4) or a 1 Hz timer tick — each carrying
the current time. -/
inductive PollEvent where
  | movement (now : ℚ)
  | tick (now : ℚ)
deriving DecidableEq

/-- Modelled from the spec (§4.5): Dormant → Active on a movement signal,
recording `last_motion := now` and immediately enqueuing one refresh; in
Dormant no timer exists, so a tick has no effect; a movement while Active
refreshes `last_motion` without an immediate refresh; a tick while Active
transitions to Dormant, skipping the fetch, when
`now − last_motion > max_idle_duration`, and otherwise enqueues one
refresh.  Returns the next state and whether a refresh was enqueued. -/
def poll_step (max_idle_duration : ℚ) :
    PollingState → PollEvent → PollingState × Bool
  | .dormant, .movement now => (.active now, true)
  | .dormant, .tick _ => (.dormant, false)
  | .active _, .movement now => (.active now, false)
  | .active lm, .tick now =>
    if now - lm > max_idle_duration then (.dormant, false)
    else (.active lm, true)

/-- The exposed polling-active boolean
(`RoadSpeedLimitsPollingSensor.is_on`, binary_sensor.py lines 37-40). -/
def polling_active : PollingState → Bool
  | .dormant => false
  | .active _ => true

/-- Running the polling state machine over a sequence of events, counting
the refresh requests emitted. -/
def poll_run (max_idle_duration : ℚ) :
    PollingState → List PollEvent → PollingState × Nat
  | st, [] => (st, 0)
  | st, e :: es =>
    let r := poll_step max_idle_duration st e
    let rest := poll_run max_idle_duration r.1 es
    (rest.1, (if r.2 then 1 else 0) + rest.2)

/-- Whether an event is a timer tick (as opposed to a qualifying
movement). -/
def is_tick : PollEvent → Bool
  | .tick _ => true
  | .movement _ => false

end RoadSpeedLimits

namespace RoadSpeedLimits

/-- C10: `convert_speed` maps a `None` speed to `None` for every pair of
units (helpers.py lines 124-125), instead of raising or returning a
number. -/
theorem convert_speed_none (from_unit to_unit : String) :
    convert_speed none from_unit to_unit = none := rfl

/-- C8: for every non-negative integer `x` (modelled by `x : ℕ`),
`convert_speed x "mph" "mph"` equals `(x / 5) * 5` (the Python `(x // 5) * 5`,
which on non-negative operands is natural floor division), while the
same-unit conversion for km/h returns `x` unchanged. -/
theorem convert_speed_same_unit (x : ℕ) :
    convert_speed (some (x : Int)) "mph" "mph" = some ((x / 5 * 5 : ℕ) : Int) ∧
    convert_speed (some (x : Int)) "km/h" "km/h" = some (x : Int) := by
  constructor
  · rw [convert_speed, if_pos rfl, if_pos rfl]
    congr 1
    rw [Nat.cast_mul, Int.ofNat_fdiv]
    norm_num
  · rfl

/-- Evaluation helper: the km/h→mph branch of `convert_speed` at a concrete
speed, given the bracketing of the floored quotient. -/
theorem convert_kmh_mph_eval (s k : Int)
    (h1 : (k : ℚ) ≤ ((s : ℚ) / (1.609344 : ℚ)) / 5)
    (h2 : ((s : ℚ) / (1.609344 : ℚ)) / 5 < k + 1) :
    convert_speed (some s) "km/h" "mph" = some (k * 5) := by
  rw [convert_speed, if_neg (by decide), if_pos (by decide)]
  have hfl : ⌊((s : ℚ) / (1.609344 : ℚ)) / 5⌋ = k := Int.floor_eq_iff.mpr ⟨h1, h2⟩
  rw [hfl]

/-- Evaluation helper: the mph→km/h branch of `convert_speed` at a concrete
speed, given the bracketing of the rounded product. -/
theorem convert_mph_kmh_eval (s k : Int)
    (h1 : (k : ℚ) ≤ (s : ℚ) * (1.609344 : ℚ) + 1 / 2)
    (h2 : (s : ℚ) * (1.609344 : ℚ) + 1 / 2 < k + 1) :
    convert_speed (some s) "mph" "km/h" = some k := by
  rw [convert_speed, if_neg (by decide), if_neg (by decide), if_pos (by decide)]
  have hr : round ((s : ℚ) * (1.609344 : ℚ)) = k := by
    rw [round_eq]
    exact Int.floor_eq_iff.mpr ⟨h1, h2⟩
  rw [hr]

/-- C9: for every non-negative integer `x`, the km/h→mph conversion yields
a non-negative multiple of 5 that never exceeds the exact converted value
`x / 1.609344` (conservative flooring, helpers.py lines 133-137). -/
theorem convert_speed_kmh_to_mph_conservative (x : ℕ) (y : Int)
    (h : convert_speed (some (x : Int)) "km/h" "mph" = some y) :
    (5 : Int) ∣ y ∧ 0 ≤ y ∧ (y : ℚ) ≤ (x : ℚ) / (1.609344 : ℚ) := by
  have hne : ¬(("km/h" : String) = "mph") := by decide
  have hpair : (("km/h" : String) = "km/h" ∧ ("mph" : String) = "mph") := by decide
  rw [convert_speed, if_neg hne, if_pos hpair] at h
  have hy : y = ⌊(((x : Int) : ℚ) / (1.609344 : ℚ)) / 5⌋ * 5 := by
    exact (Option.some.injEq _ _ ▸ h.symm)
  set q : ℚ := (((x : Int) : ℚ) / (1.609344 : ℚ)) with hq
  have hq0 : 0 ≤ q := by
    apply div_nonneg
    · push_cast; positivity
    · norm_num
  refine ⟨⟨⌊q / 5⌋, by rw [hy]; ring⟩, ?_, ?_⟩
  · rw [hy]
    have : 0 ≤ ⌊q / 5⌋ := Int.floor_nonneg.mpr (by positivity)
    positivity
  · rw [hy]
    have hfl : ((⌊q / 5⌋ : Int) : ℚ) ≤ q / 5 := Int.floor_le _
    have : ((⌊q / 5⌋ * 5 : Int) : ℚ) ≤ q := by
      push_cast
      linarith
    calc ((⌊q / 5⌋ * 5 : Int) : ℚ) ≤ q := this
      _ = (x : ℚ) / (1.609344 : ℚ) := by rw [hq]; push_cast; ring_nf

/-- Witness for C9 at `x = 100`: the converted value is 60 mph. -/
theorem convert_speed_kmh_to_mph_conservative_witness :
    (5 : Int) ∣ (60 : Int) ∧ (0 : Int) ≤ 60 ∧
      ((60 : Int) : ℚ) ≤ (100 : ℚ) / (1.609344 : ℚ) := by
  refine convert_speed_kmh_to_mph_conservative 100 60 ?_
  have h := convert_kmh_mph_eval 100 12 (by norm_num) (by norm_num)
  simpa using h

/-- C5 counterexample: the claim `|x − roundtrip x| ≤ 2` fails at
`x = 30`: `convert_speed 30 "km/h" "mph" = 15` and
`convert_speed 15 "mph" "km/h" = 24`, and `|30 − 24| = 6 > 2`. -/
theorem kmh_mph_roundtrip_not_within_two :
    convert_speed (convert_speed (some 30) "km/h" "mph") "mph" "km/h" = some 24 ∧
    ¬((30 - 24 : Int).natAbs ≤ 2) := by
  constructor
  · rw [show convert_speed (some 30) "km/h" "mph" = some 15 by
      have h := convert_kmh_mph_eval 30 3 (by norm_num) (by norm_num)
      simpa using h]
    have h := convert_mph_kmh_eval 15 24 (by norm_num) (by norm_num)
    simpa using h
  · decide

/-- C5 amended: for each `x ∈ {30, 50, 100}`, the round trip
`convert(convert(x, "km/h", "mph"), "mph", "km/h")` is within 6 units of
`x` (the round trips give 24, 48 and 97 respectively; the worst deviation,
at `x = 30`, is 6). -/
theorem kmh_mph_roundtrip_within_six :
    (convert_speed (convert_speed (some 30) "km/h" "mph") "mph" "km/h" = some 24 ∧
      (30 - 24 : Int).natAbs ≤ 6) ∧
    (convert_speed (convert_speed (some 50) "km/h" "mph") "mph" "km/h" = some 48 ∧
      (50 - 48 : Int).natAbs ≤ 6) ∧
    (convert_speed (convert_speed (some 100) "km/h" "mph") "mph" "km/h" = some 97 ∧
      (100 - 97 : Int).natAbs ≤ 6) := by
  refine ⟨⟨?_, by decide⟩, ⟨?_, by decide⟩, ⟨?_, by decide⟩⟩
  · rw [show convert_speed (some 30) "km/h" "mph" = some 15 by
      have h := convert_kmh_mph_eval 30 3 (by norm_num) (by norm_num)
      simpa using h]
    have h := convert_mph_kmh_eval 15 24 (by norm_num) (by norm_num)
    simpa using h
  · rw [show convert_speed (some 50) "km/h" "mph" = some 30 by
      have h := convert_kmh_mph_eval 50 6 (by norm_num) (by norm_num)
      simpa using h]
    have h := convert_mph_kmh_eval 30 48 (by norm_num) (by norm_num)
    simpa using h
  · rw [show convert_speed (some 100) "km/h" "mph" = some 60 by
      have h := convert_kmh_mph_eval 100 12 (by norm_num) (by norm_num)
      simpa using h]
    have h := convert_mph_kmh_eval 60 97 (by norm_num) (by norm_num)
    simpa using h

/-- C6: for every valid coordinate observation, `_on_location_change`
updates the session's current coordinate unconditionally, and requests a
refresh iff the computed distance from the last-fetch coordinate is at
least `min_update_distance`; in particular a displacement of exactly
`min_update_distance` triggers a refresh and one of
`min_update_distance − 1` does not. -/
theorem on_location_change_threshold (dist : ℚ → ℚ → ℚ → ℚ → ℚ)
    (minU : ℚ) (st : CoordSession) (la lo : ℚ)
    (h : validate_coordinates (some la) (some lo) = true) :
    (on_location_change dist minU st (some la) (some lo)).1.latitude = la ∧
    (on_location_change dist minU st (some la) (some lo)).1.longitude = lo ∧
    ((on_location_change dist minU st (some la) (some lo)).2 = true ↔
      dist st.last_api_latitude st.last_api_longitude la lo ≥ minU) ∧
    (dist st.last_api_latitude st.last_api_longitude la lo = minU →
      (on_location_change dist minU st (some la) (some lo)).2 = true) ∧
    (dist st.last_api_latitude st.last_api_longitude la lo = minU - 1 →
      (on_location_change dist minU st (some la) (some lo)).2 = false) := by
  have hstep : on_location_change dist minU st (some la) (some lo) =
      (if dist st.last_api_latitude st.last_api_longitude la lo ≥ minU
        then ({ st with latitude := la, longitude := lo }, true)
        else ({ st with latitude := la, longitude := lo }, false)) := by
    rw [on_location_change]
    rw [if_pos h]
  by_cases hd : dist st.last_api_latitude st.last_api_longitude la lo ≥ minU
  · rw [hstep, if_pos hd]
    refine ⟨rfl, rfl, ?_, fun _ => rfl, fun heq => ?_⟩
    · simpa using hd
    · exfalso
      rw [heq] at hd
      linarith
  · rw [hstep, if_neg hd]
    refine ⟨rfl, rfl, ?_, fun heq => ?_, fun _ => rfl⟩
    · simpa using hd
    · exact absurd (le_of_eq heq.symm) hd

/-- Witness for C6 with a constant distance of 5 against a threshold of 5:
the coordinate is updated and the refresh fires at exactly the threshold. -/
theorem on_location_change_threshold_witness :
    (on_location_change (fun _ _ _ _ => (5 : ℚ)) 5 ⟨0, 0, 0, 0⟩
        (some 1) (some 2)).1.latitude = 1 ∧
    (on_location_change (fun _ _ _ _ => (5 : ℚ)) 5 ⟨0, 0, 0, 0⟩
        (some 1) (some 2)).1.longitude = 2 ∧
    ((on_location_change (fun _ _ _ _ => (5 : ℚ)) 5 ⟨0, 0, 0, 0⟩
        (some 1) (some 2)).2 = true ↔ (5 : ℚ) ≥ 5) ∧
    ((5 : ℚ) = 5 →
      (on_location_change (fun _ _ _ _ => (5 : ℚ)) 5 ⟨0, 0, 0, 0⟩
        (some 1) (some 2)).2 = true) ∧
    ((5 : ℚ) = 5 - 1 →
      (on_location_change (fun _ _ _ _ => (5 : ℚ)) 5 ⟨0, 0, 0, 0⟩
        (some 1) (some 2)).2 = false) :=
  on_location_change_threshold (fun _ _ _ _ => (5 : ℚ)) 5 ⟨0, 0, 0, 0⟩ 1 2
    (by decide)

/-- C7: an observation with a missing component, a latitude outside
`[-90, 90]`, or a longitude outside `[-180, 180]` is discarded silently:
the session is unchanged and no refresh is requested (helpers.py lines
87-110 and coordinator.py lines 172-173). -/
theorem on_location_change_invalid_discarded (dist : ℚ → ℚ → ℚ → ℚ → ℚ)
    (minU : ℚ) (st : CoordSession) (new_lat new_lon : Option ℚ)
    (h : new_lat = none ∨ new_lon = none ∨
      (∃ la, new_lat = some la ∧ (la < -90 ∨ 90 < la)) ∨
      (∃ lo, new_lon = some lo ∧ (lo < -180 ∨ 180 < lo))) :
    on_location_change dist minU st new_lat new_lon = (st, false) := by
  have hval : validate_coordinates new_lat new_lon = false := by
    rcases h with h | h | ⟨la, hla, hr⟩ | ⟨lo, hlo, hr⟩
    · subst h
      cases new_lon <;> rfl
    · subst h
      cases new_lat <;> rfl
    · subst hla
      cases new_lon with
      | none => rfl
      | some lo =>
        rw [validate_coordinates, if_pos]
        rcases hr with hr | hr
        · exact fun hc => absurd hc.1 (not_le.mpr (by linarith))
        · exact fun hc => absurd hc.2 (not_le.mpr hr)
    · subst hlo
      cases new_lat with
      | none => rfl
      | some la =>
        rw [validate_coordinates]
        by_cases hla2 : (-90 : ℚ) ≤ la ∧ la ≤ 90
        · rw [if_neg (not_not_intro hla2), if_pos]
          rcases hr with hr | hr
          · exact fun hc => absurd hc.1 (not_le.mpr (by linarith))
          · exact fun hc => absurd hc.2 (not_le.mpr hr)
        · rw [if_pos hla2]
  cases new_lat with
  | none => rfl
  | some la =>
    cases new_lon with
    | none => rfl
    | some lo =>
      rw [on_location_change, if_neg (by simp [hval])]

/-- The fallback scan loop equals a find-first over the preference order
with the primary filtered out. -/
theorem scan_fallback_eq (data : String → Option SpeedLimitData)
    (ds : String) (names : String → String) :
    ∀ l : List String,
      scan_fallback data ds names l =
        ((l.filter (fun s => s ≠ ds)).find?
            (fun s => has_usable_speed (data s))).map
          (fun s => ((data s).getD default, names s))
  | [] => rfl
  | s :: rest => by
    by_cases hs : s = ds
    · simp only [scan_fallback, if_pos hs, List.filter_cons]
      rw [scan_fallback_eq data ds names rest]
      simp [hs]
    · cases hd : data s with
      | none =>
        simp only [scan_fallback, if_neg hs, hd, List.filter_cons]
        rw [scan_fallback_eq data ds names rest]
        simp [hs, hd, has_usable_speed]
      | some r =>
        by_cases hr : r.speed_limit.isSome
        · simp only [scan_fallback, if_neg hs, hd, if_pos hr, List.filter_cons]
          simp [hs, hd, has_usable_speed, hr]
        · simp only [scan_fallback, if_neg hs, hd, if_neg hr, List.filter_cons]
          rw [scan_fallback_eq data ds names rest]
          simp [hs, hd, has_usable_speed, hr]

/-- C1 counterexample: with the primary provider HERE holding a usable
entry (speed_limit = 50) and `fallback_active` previously `true`,
`get_primary_data` returns the primary entry but leaves `fallback_active`
at `true` — it is not "marked inactive" as the claim states (no assignment
to the flag exists on that path, coordinator.py lines 347-349; the flag is
only cleared at fetch time, line 301). -/
theorem get_primary_data_keeps_fallback_flag_on_primary_hit :
    has_usable_speed
      ((fun s => if s = "here"
          then some { speed_limit := some 50, road_name := some "A1",
                      unit := some "km/h", distance := some 0 }
          else (none : Option SpeedLimitData)) "here") = true ∧
    (get_primary_data
        (fun s => if s = "here"
          then some { speed_limit := some 50, road_name := some "A1",
                      unit := some "km/h", distance := some 0 }
          else none)
        "here" (fun _ => "HERE Maps") true none).fallback_active = true := by
  constructor
  · rfl
  · rfl

/-- C1 amended: `get_primary_data` implements the spec's three-step
read-time resolution with step 1 leaving fallback-active unchanged instead
of marking it inactive: a usable primary entry is returned with the state
untouched; otherwise the first usable entry in HERE → TomTom → OSM order
(primary skipped) is returned with fallback-active set and that provider
recorded; otherwise the primary's entry is returned verbatim with the
state as previously set. -/
theorem get_primary_data_eq_resolve_spec (data : String → Option SpeedLimitData)
    (ds : String) (names : String → String) (fa : Bool) (ap : Option String) :
    get_primary_data data ds names fa ap = resolve_spec data ds names fa ap := by
  rw [get_primary_data, resolve_spec]
  by_cases hp : has_usable_speed (data ds) = true
  · simp [hp]
  · rw [Bool.not_eq_true] at hp
    simp only [hp, Bool.false_eq_true, if_false]
    rw [scan_fallback_eq]
    cases hf : (["here", "tomtom", "osm"].filter (fun s => s ≠ ds)).find?
        (fun s => has_usable_speed (data s)) with
    | none => simp
    | some s =>
      have hu : has_usable_speed (data s) = true := by
        have := List.find?_some hf
        simpa using this
      cases hds : data s with
      | none =>
        rw [hds] at hu
        exact absurd hu (by simp [has_usable_speed])
      | some r => simp [hds]

/-- C2 (code bug): the transient half of the claim holds — a persistent
transient status (503) is attempted 3 times with delays of 2 s then 4 s —
but the non-transient half does not: a persistent non-transient status
(404) is retried in exactly the same way (delays [2, 4], failure only
after the third attempt) instead of failing immediately without retry,
because the `ClientError` raised for it on providers.py line 137 sits
inside the same `try` whose `except` clause (line 139) catches
`aiohttp.ClientError` and re-enters the loop. -/
theorem osm_non_transient_status_retried :
    is_transient_status 404 = false ∧
    osm_fetch_speed_limit (fun _ => .httpStatus 404) = (none, [2, 4]) ∧
    osm_fetch_speed_limit (fun _ => .httpStatus 503) = (none, [2, 4]) ∧
    osm_fetch_speed_limit (fun _ => .timeout) = (none, [2, 4]) := by
  refine ⟨rfl, rfl, rfl, rfl⟩

/-- The provider-querying phase always queries at least the primary
provider. -/
theorem fetch_phase_queried_ne_nil (providers : List String) (ds : String)
    (names : String → String) (pref : String)
    (fetchRes : String → Option SpeedLimitData) (now : ℚ)
    (fa : Bool) (ap : Option String) :
    (fetch_phase providers ds names pref fetchRes now fa ap).queried ≠ [] := by
  rw [fetch_phase]
  by_cases hp : has_usable_speed (match fetchRes ds with
      | some d => apply_unit_conversion pref (some d)
      | none => none) = true
  · simp [hp]
  · rw [Bool.not_eq_true] at hp
    simp [hp]

/-- Every cache entry the provider-querying phase stores is the cycle's
ResultSet, which always contains at least the primary provider's key — so
the stored dicts are never empty and the truthiness test on a cache hit
never rejects a reachable entry. -/
theorem stored_cache_entries_nonempty (providers : List String) (ds : String)
    (names : String → String) (pref : String)
    (fetchRes : String → Option SpeedLimitData) (now : ℚ)
    (fa : Bool) (ap : Option String) :
    (fetch_phase providers ds names pref fetchRes now fa ap).cacheWrite =
      some ((fetch_phase providers ds names pref fetchRes now fa ap).results, now) ∧
    (fetch_phase providers ds names pref fetchRes now fa ap).results ≠ [] := by
  rw [fetch_phase]
  by_cases hp : has_usable_speed (match fetchRes ds with
      | some d => apply_unit_conversion pref (some d)
      | none => none) = true
  · simp [hp]
  · rw [Bool.not_eq_true] at hp
    simp [hp]

/-- C3: per refresh cycle — (i) cache eligibility holds exactly when the
speed reading is not a numeric value ≥ 16 km/h (absent entity, missing
state, unavailable/unknown, unparsable, or numeric < 16); (ii) a numeric
reading ≥ 16 bypasses the cache and providers are queried; (iii) when
eligible, a non-empty cache entry at this cycle's quantized coordinate
younger than 300 s is returned with no provider queried and the state
untouched; (iv) when eligible, an expired entry is deleted on that read
and providers are queried. -/
theorem update_data_cache_policy (providers : List String) (ds : String)
    (names : String → String) (pref : String)
    (fetchRes : String → Option SpeedLimitData)
    (speed : Option (Option SpeedState)) (cacheEntry : Option (ResultSet × ℚ))
    (now : ℚ) (fa : Bool) (ap : Option String) :
    (cache_eligible speed = true ↔
      (speed = none ∨ speed = some none ∨ speed = some (some .unavailable) ∨
        speed = some (some .unknown) ∨ speed = some (some .unparsable) ∨
        ∃ v, speed = some (some (.numeric v)) ∧ v < 16)) ∧
    (∀ v : ℚ, speed = some (some (.numeric v)) → 16 ≤ v →
      (async_update_data providers ds names pref fetchRes speed cacheEntry now
          fa ap).queried ≠ []) ∧
    (cache_eligible speed = true → ∀ d ts, cacheEntry = some (d, ts) →
      now - ts < 300 → d ≠ [] →
      async_update_data providers ds names pref fetchRes speed cacheEntry now
          fa ap =
        { results := d, queried := [], cacheWrite := some (d, ts),
          fallback_active := fa, active_provider_name := ap }) ∧
    (cache_eligible speed = true → ∀ d ts, cacheEntry = some (d, ts) →
      ¬(now - ts < 300) →
      get_cached_data cacheEntry now = (none, none) ∧
      (async_update_data providers ds names pref fetchRes speed cacheEntry now
          fa ap).queried ≠ []) := by
  refine ⟨?_, ?_, ?_, ?_⟩
  · cases speed with
    | none => simp [cache_eligible]
    | some s =>
      cases s with
      | none => simp [cache_eligible]
      | some st =>
        cases st with
        | unavailable => simp [cache_eligible]
        | unknown => simp [cache_eligible]
        | unparsable => simp [cache_eligible]
        | numeric v =>
          by_cases hv : v ≥ 16
          · simp only [cache_eligible, if_pos hv]
            constructor
            · intro h
              exact absurd h (by simp)
            · rintro (h | h | h | h | h | ⟨w, hw, hlt⟩) <;>
                first
                | exact absurd h (by simp)
                | · rw [Option.some.injEq, Option.some.injEq,
                      SpeedState.numeric.injEq] at hw
                    exact absurd hv (not_le.mpr (hw ▸ hlt))
          · simp only [cache_eligible, if_neg hv]
            simp only [true_iff]
            refine Or.inr (Or.inr (Or.inr (Or.inr (Or.inr ⟨v, rfl, ?_⟩))))
            exact not_le.mp hv
  · intro v hsp hge
    subst hsp
    have hel : cache_eligible (some (some (SpeedState.numeric v))) = false := by
      simp only [cache_eligible, if_pos hge]
    rw [async_update_data]
    simp only [hel, Bool.false_eq_true, if_false]
    exact fetch_phase_queried_ne_nil providers ds names pref fetchRes now fa ap
  · intro hel d ts hentry hfresh hdne
    subst hentry
    rw [async_update_data]
    simp only [hel, if_true, get_cached_data, if_pos hfresh]
    cases d with
    | nil => exact absurd rfl hdne
    | cons a l => rfl
  · intro hel d ts hentry hstale
    subst hentry
    constructor
    · rw [get_cached_data, if_neg hstale]
    · rw [async_update_data]
      simp only [hel, if_true, get_cached_data, if_neg hstale]
      exact fetch_phase_queried_ne_nil providers ds names pref fetchRes now fa ap

/-- Witness for C3 (the cache-hit case): with an eligible speed reading of
5 km/h and a 100-second-old non-empty entry, the entry is returned with no
provider queried. -/
theorem update_data_cache_policy_witness :
    async_update_data ["osm"] "osm" (fun _ => "OpenStreetMap") "mph"
        (fun _ => none) (some (some (.numeric 5)))
        (some ([("osm", none)], 0)) 100 false none =
      { results := [("osm", none)], queried := [],
        cacheWrite := some ([("osm", none)], 0),
        fallback_active := false, active_provider_name := none } :=
  (update_data_cache_policy ["osm"] "osm" (fun _ => "OpenStreetMap") "mph"
      (fun _ => none) (some (some (.numeric 5)))
      (some ([("osm", none)], 0)) 100 false none).2.2.1
    (by norm_num [cache_eligible]) [("osm", none)] 0 rfl (by norm_num)
    (by simp)

/-- In Dormant, a sequence of ticks (no movement) emits no refresh and the
machine stays Dormant. -/
theorem poll_run_dormant_ticks (mi : ℚ) :
    ∀ evs : List PollEvent, (∀ e ∈ evs, is_tick e = true) →
      poll_run mi .dormant evs = (.dormant, 0)
  | [], _ => rfl
  | e :: es, h => by
    cases e with
    | movement t =>
      exact absurd (h _ (List.mem_cons_self _ _)) (by simp [is_tick])
    | tick t =>
      rw [poll_run]
      simp only [poll_step]
      rw [poll_run_dormant_ticks mi es (fun e he => h e (List.mem_cons_of_mem _ he))]
      simp

/-- C4 (spec-modelled, §4.5): on a tick with
`now − last_motion > max_idle_duration` the machine transitions from
Active (polling-active true) to Dormant (polling-active false) without a
refresh, and from then on any sequence of ticks with no qualifying
movement emits no further refresh request. -/
theorem polling_idle_timeout_dormant (mi lm now : ℚ) (h : now - lm > mi) :
    polling_active (PollingState.active lm) = true ∧
    poll_step mi (.active lm) (.tick now) = (.dormant, false) ∧
    polling_active (poll_step mi (.active lm) (.tick now)).1 = false ∧
    ∀ evs : List PollEvent, (∀ e ∈ evs, is_tick e = true) →
      poll_run mi (poll_step mi (.active lm) (.tick now)).1 evs = (.dormant, 0) := by
  have hstep : poll_step mi (.active lm) (.tick now) = (.dormant, false) := by
    rw [poll_step, if_pos h]
  refine ⟨rfl, hstep, by rw [hstep]; rfl, fun evs hev => ?_⟩
  rw [hstep]
  exact poll_run_dormant_ticks mi evs hev

/-- Witness for C4 with `max_idle_duration = 5`, `last_motion = 0`, a tick
at `now = 6`, then two further ticks: the machine goes Dormant and emits
no refresh. -/
theorem polling_idle_timeout_dormant_witness :
    poll_step 5 (.active 0) (.tick 6) = (.dormant, false) ∧
    poll_run 5 PollingState.dormant [PollEvent.tick 7, PollEvent.tick 8] =
      (.dormant, 0) := by
  refine ⟨(polling_idle_timeout_dormant 5 0 6 (by norm_num)).2.1, ?_⟩
  have h := (polling_idle_timeout_dormant 5 0 6 (by norm_num)).2.2.2
    [PollEvent.tick 7, PollEvent.tick 8] (by decide)
  rw [(polling_idle_timeout_dormant 5 0 6 (by norm_num)).2.1] at h
  exact h

/-- Witness for C7 at latitude 91 (out of range): the observation is
discarded. -/
theorem on_location_change_invalid_discarded_witness :
    on_location_change (fun _ _ _ _ => (0 : ℚ)) 5 ⟨0, 0, 0, 0⟩
      (some 91) (some 0) = (⟨0, 0, 0, 0⟩, false) :=
  on_location_change_invalid_discarded (fun _ _ _ _ => (0 : ℚ)) 5 ⟨0, 0, 0, 0⟩
    (some 91) (some 0)
    (Or.inr (Or.inr (Or.inl ⟨91, rfl, Or.inr (by norm_num)⟩)))

end RoadSpeedLimits
